import Mathlib

/-!
Verification of the Chaosec traffic obfuscation tool (src/chaosec.py).

The Python source is shallowly embedded: Python floats become exact
rationals, the per-generator while-loops become explicit per-iteration
step functions over the random draws and an abstract transport outcome,
and the process-level pieces (signal handler, shutdown, thread spawning)
become explicit event lists. Every failure point of a loop body is
represented, and the blanket catch of the loop maps each failure to the
exact no-op the source performs.
-/

namespace Chaosec

/-- A traffic pattern profile: the value type of one entry of the
TRAFFIC_PATTERNS dict (src/chaosec.py lines 31-64). Python floats are
embedded as exact rationals. -/
structure Profile where
  http_ratio : ℚ
  dns_ratio : ℚ
  tcp_ratio : ℚ
  udp_ratio : ℚ
  interval_min : ℚ
  interval_max : ℚ
deriving DecidableEq

/-- The TRAFFIC_PATTERNS dict (lines 31-64). Python dict indexing with an
absent key raises KeyError; an absent key is embedded as `none`. -/
def TRAFFIC_PATTERNS : String → Option Profile
  | "browsing" => some ⟨0.6, 0.3, 0.1, 0.05, 1.0, 8.0⟩
  | "streaming" => some ⟨0.8, 0.1, 0.05, 0.2, 0.5, 2.0⟩
  | "gaming" => some ⟨0.2, 0.1, 0.3, 0.5, 0.1, 1.0⟩
  | "chaotic" => some ⟨1.0, 1.0, 1.0, 1.0, 0.1, 0.5⟩
  | _ => none

/-- The argparse choices for the pattern argument (line 433). -/
def patternChoices : List String := ["browsing", "streaming", "gaming", "chaotic"]

/-- Outcome of the CLI boundary: either the process exits with the given
status before any generator starts, or the tool is started with the
validated configuration. -/
inductive ConfigOutcome where
  | exitCode (code : ℕ)
  | started (pattern : String) (intensity : ℚ)
deriving DecidableEq

/-- CLI validation performed in main before the tool starts: argparse
rejects a pattern outside its choices with exit status 2 (lines 433-434),
and main rejects an intensity outside [0.1, 10.0] with exit status 1
(lines 453-455). -/
def main_args_check (pattern : String) (intensity : ℚ) : ConfigOutcome :=
  if pattern ∉ patternChoices then ConfigOutcome.exitCode 2
  else if intensity < 0.1 ∨ intensity > 10.0 then ConfigOutcome.exitCode 1
  else ConfigOutcome.started pattern intensity

/-- The activation gate run first in every generator iteration
(lines 195, 257, 313, 372): the iteration performs its network action
exactly when the uniform draw u is not above ratio times intensity. -/
def gateActs (effectiveRatio u : ℚ) : Bool := !decide (u > effectiveRatio)

/-- The pacing computation shared verbatim by all four generators
(lines 214-221, 277-284, 339-346, 402-409): the uniform draw from
[interval_min, interval_max] of the active profile arrives as the `draw`
argument and is divided by intensity; in Tor mode a value below 1.0 is
replaced by max of itself and 1.0. -/
def pace_sleep (intensity : ℚ) (tor_mode : Bool) (draw : ℚ) : ℚ :=
  let sleep_time := draw / intensity
  if tor_mode ∧ sleep_time < 1 then max sleep_time 1 else sleep_time

/-- Observable outcome of one iteration of a generator loop body. -/
structure IterResult where
  count : ℕ
  sleep : ℚ
  attempted : Bool
  acted : Bool
  escaped : Bool
deriving DecidableEq

/-- One iteration of generate_dns_noise (lines 192-226). resolveOk
abstracts whether resolver.resolve at line 208 succeeds; the domain,
subdomain and qtype draws (lines 199-207) only shape the query payload
and cannot raise, so they are not tracked. An unknown pattern makes the
dict lookup at line 195 raise KeyError. Every exception of the body is
caught by the blanket handler at lines 224-226, which performs no sleep
and leaves the counter unchanged. -/
def generate_dns_noise_iter (pattern : String) (intensity : ℚ) (tor_mode : Bool)
    (count : ℕ) (uGate : ℚ) (resolveOk : Bool) (paceDraw : ℚ) : IterResult :=
  match TRAFFIC_PATTERNS pattern with
  | none => ⟨count, 0, false, false, false⟩
  | some prof =>
    if uGate > prof.dns_ratio * intensity then
      ⟨count, 0.1, false, false, false⟩
    else if resolveOk then
      ⟨count + 1, pace_sleep intensity tor_mode paceDraw, true, true, false⟩
    else
      ⟨count, 0, true, false, false⟩

/-- One iteration of generate_http_noise (lines 254-289). requestOk
abstracts whether the session.post or session.get call at lines 268-271
succeeds; the URL, user agent and GET-versus-POST draws (lines 261-267)
only select which single request is made and cannot raise themselves.
Every exception of the body is caught at lines 287-289. -/
def generate_http_noise_iter (pattern : String) (intensity : ℚ) (tor_mode : Bool)
    (count : ℕ) (uGate : ℚ) (requestOk : Bool) (paceDraw : ℚ) : IterResult :=
  match TRAFFIC_PATTERNS pattern with
  | none => ⟨count, 0, false, false, false⟩
  | some prof =>
    if uGate > prof.http_ratio * intensity then
      ⟨count, 0.1, false, false, false⟩
    else if requestOk then
      ⟨count + 1, pace_sleep intensity tor_mode paceDraw, true, true, false⟩
    else
      ⟨count, 0, true, false, false⟩

/-- One iteration of generate_udp_noise (lines 369-414). sendOk abstracts
whether sock.sendto at line 395 succeeds; port, payload and target
selection (lines 380-393) cannot raise. Every exception of the body is
caught at lines 412-414. -/
def generate_udp_noise_iter (pattern : String) (intensity : ℚ) (tor_mode : Bool)
    (count : ℕ) (uGate : ℚ) (sendOk : Bool) (paceDraw : ℚ) : IterResult :=
  match TRAFFIC_PATTERNS pattern with
  | none => ⟨count, 0, false, false, false⟩
  | some prof =>
    if uGate > prof.udp_ratio * intensity then
      ⟨count, 0.1, false, false, false⟩
    else if sendOk then
      ⟨count + 1, pace_sleep intensity tor_mode paceDraw, true, true, false⟩
    else
      ⟨count, 0, true, false, false⟩

/-- The targets list of generate_tcp_noise (lines 294-300). -/
def tcp_targets : List String :=
  ["mozilla.org", "kernel.org", "debian.org", "ubuntu.com", "archlinux.org",
   "python.org", "rust-lang.org", "golang.org", "gnu.org", "fsf.org",
   "linuxfoundation.org", "opensuse.org", "redhat.com", "kali.org"]

/-- The common_ports list of generate_tcp_noise (line 293). -/
def tcp_common_ports : List ℕ := [80, 443, 8080, 8443, 22, 25, 143, 993, 587, 110, 995]

/-- The http_requests templates (lines 303-308); literal braces of the
placeholder are written with hex escapes. In the source these are bytes
literals. -/
def http_requests : List String :=
  ["GET / HTTP/1.1\r\nHost: \x7b\x7d\r\nUser-Agent: Mozilla/5.0\r\n\r\n",
   "HEAD / HTTP/1.1\r\nHost: \x7b\x7d\r\nUser-Agent: Chrome/92.0\r\n\r\n",
   "GET /index.html HTTP/1.1\r\nHost: \x7b\x7d\r\nUser-Agent: Firefox/89.0\r\n\r\n",
   "GET /about HTTP/1.1\r\nHost: \x7b\x7d\r\nUser-Agent: Safari/605.1\r\n\r\n"]

/-- Python exceptions that can arise inside a generator loop body. -/
inductive PyExc where
  | keyError
  | resolveError
  | requestError
  | socketError
  | attributeError
deriving DecidableEq

/-- Line 327 evaluates request.format(target.encode()) where request is a
bytes literal drawn from http_requests (lines 303-308). In Python 3 the
bytes type has no format method (only str does), so attribute lookup of
format on request raises AttributeError unconditionally, before anything
is written to the socket. -/
def bytes_format (template arg : String) : Except PyExc String :=
  Except.error PyExc.attributeError

/-- Observable outcome of one iteration of the TCP generator loop body. -/
structure TcpIterResult where
  count : ℕ
  sleep : ℚ
  sent : Option String
  closedSocket : Bool
  attempted : Bool
  acted : Bool
  escaped : Bool
deriving DecidableEq

/-- The random draws and transport outcomes of one TCP iteration. -/
structure TcpIn where
  uGate : ℚ
  targetIdx : Fin tcp_targets.length
  portIdx : Fin tcp_common_ports.length
  connectOk : Bool
  reqIdx : Fin http_requests.length
  uRecv : ℚ
  recvOk : Bool
  paceDraw : ℚ
deriving DecidableEq

/-- One iteration of generate_tcp_noise (lines 310-351). connectOk
abstracts sock.connect (line 322) and recvOk abstracts sock.recv
(line 331); sock.send (line 327) is reached only if bytes_format returns
a value, and a send failure would likewise be caught, so that unreachable
path is not given a flag of its own. When sock.recv raises, the close at
line 333 is skipped because control jumps to the handler. Every exception
of the body is caught at lines 349-351. -/
def generate_tcp_noise_iter (pattern : String) (intensity : ℚ) (tor_mode : Bool)
    (count : ℕ) (i : TcpIn) : TcpIterResult :=
  match TRAFFIC_PATTERNS pattern with
  | none =>
    { count := count, sleep := 0, sent := none, closedSocket := false,
      attempted := false, acted := false, escaped := false }
  | some prof =>
    if i.uGate > prof.tcp_ratio * intensity then
      { count := count, sleep := 0.1, sent := none, closedSocket := false,
        attempted := false, acted := false, escaped := false }
    else
      let target := tcp_targets.get i.targetIdx
      let port := tcp_common_ports.get i.portIdx
      if i.connectOk = false then
        { count := count, sleep := 0, sent := none, closedSocket := false,
          attempted := true, acted := false, escaped := false }
      else if port = 80 ∨ port = 443 ∨ port = 8080 ∨ port = 8443 then
        match bytes_format (http_requests.get i.reqIdx) target with
        | Except.error _ =>
          { count := count, sleep := 0, sent := none, closedSocket := false,
            attempted := true, acted := false, escaped := false }
        | Except.ok req =>
          if i.uRecv > 0.7 ∧ i.recvOk = false then
            { count := count, sleep := 0, sent := some req, closedSocket := false,
              attempted := true, acted := false, escaped := false }
          else
            { count := count + 1, sleep := pace_sleep intensity tor_mode i.paceDraw,
              sent := some req, closedSocket := true,
              attempted := true, acted := true, escaped := false }
      else
        { count := count + 1, sleep := pace_sleep intensity tor_mode i.paceDraw,
          sent := none, closedSocket := true,
          attempted := true, acted := true, escaped := false }

/-- Random draws and transport outcome of one DNS iteration. -/
structure DnsIn where
  uGate : ℚ
  resolveOk : Bool
  paceDraw : ℚ
deriving DecidableEq

/-- Random draws and transport outcome of one HTTP iteration. -/
structure HttpIn where
  uGate : ℚ
  requestOk : Bool
  paceDraw : ℚ
deriving DecidableEq

/-- Random draws and transport outcome of one UDP iteration. -/
structure UdpIn where
  uGate : ℚ
  sendOk : Bool
  paceDraw : ℚ
deriving DecidableEq

/-- Accumulate one DNS iteration into (counter, some exception escaped). -/
def dns_stats_step (pattern : String) (intensity : ℚ) (tor_mode : Bool)
    (acc : ℕ × Bool) (i : DnsIn) : ℕ × Bool :=
  let r := generate_dns_noise_iter pattern intensity tor_mode acc.1 i.uGate i.resolveOk i.paceDraw
  (r.count, acc.2 || r.escaped)

/-- Run the DNS generator loop body over a list of iteration inputs,
starting from a zero counter, returning the final counter and whether any
iteration let an exception escape. -/
def generate_dns_noise_run (pattern : String) (intensity : ℚ) (tor_mode : Bool)
    (ins : List DnsIn) : ℕ × Bool :=
  ins.foldl (dns_stats_step pattern intensity tor_mode) (0, false)

/-- Accumulate one HTTP iteration into (counter, some exception escaped). -/
def http_stats_step (pattern : String) (intensity : ℚ) (tor_mode : Bool)
    (acc : ℕ × Bool) (i : HttpIn) : ℕ × Bool :=
  let r := generate_http_noise_iter pattern intensity tor_mode acc.1 i.uGate i.requestOk i.paceDraw
  (r.count, acc.2 || r.escaped)

/-- Run the HTTP generator loop body over a list of iteration inputs. -/
def generate_http_noise_run (pattern : String) (intensity : ℚ) (tor_mode : Bool)
    (ins : List HttpIn) : ℕ × Bool :=
  ins.foldl (http_stats_step pattern intensity tor_mode) (0, false)

/-- Accumulate one TCP iteration into (counter, some exception escaped). -/
def tcp_stats_step (pattern : String) (intensity : ℚ) (tor_mode : Bool)
    (acc : ℕ × Bool) (i : TcpIn) : ℕ × Bool :=
  let r := generate_tcp_noise_iter pattern intensity tor_mode acc.1 i
  (r.count, acc.2 || r.escaped)

/-- Run the TCP generator loop body over a list of iteration inputs. -/
def generate_tcp_noise_run (pattern : String) (intensity : ℚ) (tor_mode : Bool)
    (ins : List TcpIn) : ℕ × Bool :=
  ins.foldl (tcp_stats_step pattern intensity tor_mode) (0, false)

/-- Accumulate one UDP iteration into (counter, some exception escaped). -/
def udp_stats_step (pattern : String) (intensity : ℚ) (tor_mode : Bool)
    (acc : ℕ × Bool) (i : UdpIn) : ℕ × Bool :=
  let r := generate_udp_noise_iter pattern intensity tor_mode acc.1 i.uGate i.sendOk i.paceDraw
  (r.count, acc.2 || r.escaped)

/-- Run the UDP generator loop body over a list of iteration inputs. -/
def generate_udp_noise_run (pattern : String) (intensity : ℚ) (tor_mode : Bool)
    (ins : List UdpIn) : ℕ × Bool :=
  ins.foldl (udp_stats_step pattern intensity tor_mode) (0, false)

/-- The number of grid points k/N, for k below N, at which the gate
activates: the activation frequency of the gate over an equidistributed
sample of N uniform draws from the unit interval. -/
def gridActivations (effectiveRatio : ℚ) (N : ℕ) : ℕ :=
  ((Finset.range N).filter
    (fun (k : ℕ) => gateActs effectiveRatio ((k : ℚ) / (N : ℚ)) = true)).card

/-- Process-level actions taken by the shutdown code paths. -/
inductive Event where
  | clearRunFlag
  | logInfo
  | joinTask (idx : ℕ) (timeout : ℚ)
  | exitProcess (code : ℕ)
deriving DecidableEq

/-- Whether an event joins (waits on) a generator task. -/
def Event.isJoin : Event → Bool
  | Event.joinTask _ _ => true
  | _ => false

/-- The action sequence of signal_handler (lines 416-421): set the shared
running flag to False, log, and call sys.exit(0). It does not call
ChaosecTool.stop and joins no thread; SystemExit is not KeyboardInterrupt,
so the handler at line 128 does not catch it and the process terminates. -/
def signal_handler_events : List Event :=
  [Event.clearRunFlag, Event.logInfo, Event.exitProcess 0]

/-- The action sequence of ChaosecTool.stop for an engine with n threads
(lines 162-171): clear the running flag, log, join each thread with a
1.0 second timeout, log again. Once the SIGINT handler is installed at
line 462 this code is unreachable on SIGINT, because stop is called only
from the except KeyboardInterrupt branch of start (lines 128-129). -/
def ChaosecTool_stop_events (n : ℕ) : List Event :=
  Event.clearRunFlag :: Event.logInfo ::
    ((List.range n).map (fun i => Event.joinTask i 1.0) ++ [Event.logInfo])

/-- The arguments read by ChaosecTool.start. -/
structure StartArgs where
  dns_noise : Bool
  http_flood : Bool
  tcp_noise : Bool
  udp_noise : Bool
  tor_mode : Bool
  verbose : Bool
  pattern : String
  intensity : ℚ
deriving DecidableEq

/-- The kinds of daemon threads ChaosecTool.start can spawn. -/
inductive TaskKind where
  | dns | http | tcp | udp | reporter
deriving DecidableEq, BEq

/-- The threads spawned by ChaosecTool.start, in order (lines 85-118):
one generator thread per enabled protocol flag, then the stats reporter
thread when verbose is set. All of this happens before the
nothing-enabled check at line 120. -/
def start_spawned_tasks (a : StartArgs) : List TaskKind :=
  (if a.dns_noise then [TaskKind.dns] else []) ++
  (if a.http_flood then [TaskKind.http] else []) ++
  (if a.tcp_noise then [TaskKind.tcp] else []) ++
  (if a.udp_noise then [TaskKind.udp] else []) ++
  (if a.verbose then [TaskKind.reporter] else [])

/-- The nothing-enabled check of ChaosecTool.start (line 120): true when
no protocol generator flag is set, in which case start logs a warning and
returns at line 122. -/
def start_warns_nothing_enabled (a : StartArgs) : Bool :=
  !(a.dns_noise || a.http_flood || a.tcp_noise || a.udp_noise)

/-- Whether start reaches the keep-alive loop at lines 125-129: it does
exactly when the nothing-enabled early return was not taken. -/
def start_enters_keep_alive (a : StartArgs) : Bool :=
  !(start_warns_nothing_enabled a)

/-- A concrete TCP iteration input: gate passes, target mozilla.org,
port 80, connection succeeds, first request template, no read attempted,
transport otherwise healthy. -/
def tcpPort80Input : TcpIn :=
  { uGate := 0, targetIdx := ⟨0, by decide⟩, portIdx := ⟨0, by decide⟩,
    connectOk := true, reqIdx := ⟨0, by decide⟩, uRecv := 0,
    recvOk := true, paceDraw := 1 }

/-- A concrete TCP iteration input whose connect call fails. -/
def tcpConnectFailInput : TcpIn :=
  { uGate := 0, targetIdx := ⟨0, by decide⟩, portIdx := ⟨0, by decide⟩,
    connectOk := false, reqIdx := ⟨0, by decide⟩, uRecv := 0,
    recvOk := true, paceDraw := 1 }

/-- The browsing profile literal of the table (lines 32-39). -/
def browsingProfile : Profile := ⟨0.6, 0.3, 0.1, 0.05, 1.0, 8.0⟩

/-- Concrete DNS iteration inputs whose resolve calls all fail. -/
def dnsFailIns : List DnsIn := [⟨0, false, 1⟩, ⟨5, false, 1⟩]

/-- Concrete HTTP iteration inputs whose request calls all fail. -/
def httpFailIns : List HttpIn := [⟨0, false, 1⟩, ⟨5, false, 1⟩]

/-- Concrete TCP iteration inputs whose connect calls all fail. -/
def tcpFailIns : List TcpIn := [tcpConnectFailInput]

/-- Concrete UDP iteration inputs whose sendto calls all fail. -/
def udpFailIns : List UdpIn := [⟨0, false, 1⟩, ⟨5, false, 1⟩]

/-- Arguments with no protocol generator enabled but verbose set. -/
def startArgsVerboseOnly : StartArgs :=
  { dns_noise := false, http_flood := false, tcp_noise := false,
    udp_noise := false, tor_mode := false, verbose := true,
    pattern := "browsing", intensity := 1.0 }

/-- Arguments with no protocol generator enabled and verbose unset. -/
def startArgsNothing : StartArgs :=
  { dns_noise := false, http_flood := false, tcp_noise := false,
    udp_noise := false, tor_mode := false, verbose := false,
    pattern := "browsing", intensity := 1.0 }

/-! Helper lemmas about the gate, the activation grid, and iteration
outcomes, shared by the claim theorems below. -/

/-- The gate activates exactly on draws at or below the effective ratio. -/
theorem gateActs_true_iff (effectiveRatio u : ℚ) :
    gateActs effectiveRatio u = true ↔ u ≤ effectiveRatio := by
  simp [gateActs, not_lt]

/-- The gate as a decision of the inclusive comparison of the claim. -/
theorem gateActs_eq_decide_le (effectiveRatio u : ℚ) :
    gateActs effectiveRatio u = decide (u ≤ effectiveRatio) := by
  by_cases h : u ≤ effectiveRatio
  · rw [(gateActs_true_iff effectiveRatio u).mpr h, decide_eq_true h]
  · rw [decide_eq_false h]
    rw [← Bool.not_eq_true]
    intro hc
    exact h ((gateActs_true_iff effectiveRatio u).mp hc)

/-- Closed form of the activation count over the grid of N draws. -/
theorem gridActivations_eq (effectiveRatio : ℚ) (N : ℕ) (hN : 0 < N)
    (he : 0 ≤ effectiveRatio) :
    gridActivations effectiveRatio N
      = min N ((⌊effectiveRatio * (N : ℚ)⌋).toNat + 1) := by
  have hNQ : (0 : ℚ) < (N : ℚ) := by exact_mod_cast hN
  have hfl : 0 ≤ ⌊effectiveRatio * (N : ℚ)⌋ :=
    Int.floor_nonneg.mpr (mul_nonneg he hNQ.le)
  have hmem : ∀ k : ℕ,
      (gateActs effectiveRatio ((k : ℚ) / (N : ℚ)) = true)
        ↔ k ≤ (⌊effectiveRatio * (N : ℚ)⌋).toNat := by
    intro k
    rw [gateActs_true_iff, div_le_iff hNQ]
    constructor
    · intro h
      have h2 : (k : ℤ) ≤ ⌊effectiveRatio * (N : ℚ)⌋ :=
        Int.le_floor.mpr (by exact_mod_cast h)
      omega
    · intro h
      have h2 : (k : ℤ) ≤ ⌊effectiveRatio * (N : ℚ)⌋ := by omega
      have h3 := Int.le_floor.mp h2
      exact_mod_cast h3
  have hset : (Finset.range N).filter
        (fun (k : ℕ) => gateActs effectiveRatio ((k : ℚ) / (N : ℚ)) = true)
      = Finset.range (min N ((⌊effectiveRatio * (N : ℚ)⌋).toNat + 1)) := by
    ext k
    simp only [Finset.mem_filter, Finset.mem_range, hmem k, lt_min_iff]
    omega
  unfold gridActivations
  rw [hset, Finset.card_range]

/-- Over the equidistributed grid of N uniform draws, the activation
frequency is within 1/N of the effective ratio clamped to the unit
interval. -/
theorem gridActivations_freq (effectiveRatio : ℚ) (N : ℕ) (hN : 0 < N)
    (he : 0 ≤ effectiveRatio) :
    |((gridActivations effectiveRatio N : ℚ)) / (N : ℚ) - min effectiveRatio 1|
      ≤ 1 / (N : ℚ) := by
  have hNQ : (0 : ℚ) < (N : ℚ) := by exact_mod_cast hN
  rw [gridActivations_eq effectiveRatio N hN he]
  rcases le_or_lt 1 effectiveRatio with h1 | h1
  · have hNle : (N : ℤ) ≤ ⌊effectiveRatio * (N : ℚ)⌋ := by
      apply Int.le_floor.mpr
      push_cast
      nlinarith
    have hmin : min N ((⌊effectiveRatio * (N : ℚ)⌋).toNat + 1) = N := by omega
    rw [hmin, min_eq_right h1, div_self (ne_of_gt hNQ)]
    simp only [sub_self, abs_zero]
    positivity
  · have hfl : 0 ≤ ⌊effectiveRatio * (N : ℚ)⌋ :=
      Int.floor_nonneg.mpr (mul_nonneg he hNQ.le)
    have hlt : ⌊effectiveRatio * (N : ℚ)⌋ < (N : ℤ) := by
      apply Int.floor_lt.mpr
      push_cast
      nlinarith
    have hmin : min N ((⌊effectiveRatio * (N : ℚ)⌋).toNat + 1)
        = (⌊effectiveRatio * (N : ℚ)⌋).toNat + 1 := by omega
    rw [hmin, min_eq_left h1.le]
    have hmc : (((⌊effectiveRatio * (N : ℚ)⌋).toNat : ℚ))
        = ((⌊effectiveRatio * (N : ℚ)⌋ : ℤ) : ℚ) := by
      exact_mod_cast Int.toNat_of_nonneg hfl
    have key1 : (((⌊effectiveRatio * (N : ℚ)⌋).toNat : ℚ)) ≤ effectiveRatio * N := by
      rw [hmc]; exact Int.floor_le _
    have key2 : effectiveRatio * N < (((⌊effectiveRatio * (N : ℚ)⌋).toNat : ℚ)) + 1 := by
      rw [hmc]; exact Int.lt_floor_add_one _
    have hub : effectiveRatio < (((⌊effectiveRatio * (N : ℚ)⌋).toNat : ℚ) + 1) / N := by
      rw [lt_div_iff hNQ]; linarith
    have hlb : ((⌊effectiveRatio * (N : ℚ)⌋).toNat : ℚ) / N ≤ effectiveRatio := by
      rw [div_le_iff hNQ]; exact key1
    have hsplit : (((⌊effectiveRatio * (N : ℚ)⌋).toNat : ℚ) + 1) / N
        = ((⌊effectiveRatio * (N : ℚ)⌋).toNat : ℚ) / N + 1 / N := by ring
    have h1N : 0 < 1 / (N : ℚ) := by positivity
    rw [abs_le]
    push_cast
    constructor
    · linarith
    · linarith

/-- A DNS iteration whose resolve fails keeps the counter and escapes
nothing. -/
theorem dns_iter_fail_noop (pattern : String) (intensity : ℚ) (tor_mode : Bool)
    (count : ℕ) (uGate paceDraw : ℚ) :
    (generate_dns_noise_iter pattern intensity tor_mode count uGate false paceDraw).count
      = count ∧
    (generate_dns_noise_iter pattern intensity tor_mode count uGate false paceDraw).escaped
      = false := by
  unfold generate_dns_noise_iter
  cases TRAFFIC_PATTERNS pattern with
  | none => exact ⟨rfl, rfl⟩
  | some prof => by_cases h : uGate > prof.dns_ratio * intensity <;> simp [h]

/-- An HTTP iteration whose request fails keeps the counter and escapes
nothing. -/
theorem http_iter_fail_noop (pattern : String) (intensity : ℚ) (tor_mode : Bool)
    (count : ℕ) (uGate paceDraw : ℚ) :
    (generate_http_noise_iter pattern intensity tor_mode count uGate false paceDraw).count
      = count ∧
    (generate_http_noise_iter pattern intensity tor_mode count uGate false paceDraw).escaped
      = false := by
  unfold generate_http_noise_iter
  cases TRAFFIC_PATTERNS pattern with
  | none => exact ⟨rfl, rfl⟩
  | some prof => by_cases h : uGate > prof.http_ratio * intensity <;> simp [h]

/-- A UDP iteration whose sendto fails keeps the counter and escapes
nothing. -/
theorem udp_iter_fail_noop (pattern : String) (intensity : ℚ) (tor_mode : Bool)
    (count : ℕ) (uGate paceDraw : ℚ) :
    (generate_udp_noise_iter pattern intensity tor_mode count uGate false paceDraw).count
      = count ∧
    (generate_udp_noise_iter pattern intensity tor_mode count uGate false paceDraw).escaped
      = false := by
  unfold generate_udp_noise_iter
  cases TRAFFIC_PATTERNS pattern with
  | none => exact ⟨rfl, rfl⟩
  | some prof => by_cases h : uGate > prof.udp_ratio * intensity <;> simp [h]

/-- A TCP iteration whose connect fails keeps the counter and escapes
nothing. -/
theorem tcp_iter_fail_noop (pattern : String) (intensity : ℚ) (tor_mode : Bool)
    (count : ℕ) (i : TcpIn) (hc : i.connectOk = false) :
    (generate_tcp_noise_iter pattern intensity tor_mode count i).count = count ∧
    (generate_tcp_noise_iter pattern intensity tor_mode count i).escaped = false := by
  unfold generate_tcp_noise_iter
  cases TRAFFIC_PATTERNS pattern with
  | none => exact ⟨rfl, rfl⟩
  | some prof => by_cases h : i.uGate > prof.tcp_ratio * intensity <;> simp [h, hc]

/-- Folding any number of failing DNS iterations moves nothing. -/
theorem dns_run_fail_aux (pattern : String) (intensity : ℚ) (tor_mode : Bool) :
    ∀ (ins : List DnsIn) (c : ℕ) (b : Bool),
      (∀ i ∈ ins, i.resolveOk = false) →
      ins.foldl (dns_stats_step pattern intensity tor_mode) (c, b) = (c, b) := by
  intro ins
  induction ins with
  | nil => intro c b _; rfl
  | cons i is ih =>
    intro c b h
    have hi : i.resolveOk = false := h i (List.mem_cons_self i is)
    have hstep : dns_stats_step pattern intensity tor_mode (c, b) i = (c, b) := by
      unfold dns_stats_step
      rw [hi]
      obtain ⟨h1, h2⟩ := dns_iter_fail_noop pattern intensity tor_mode c i.uGate i.paceDraw
      simp [h1, h2]
    rw [List.foldl_cons, hstep]
    exact ih c b (fun j hj => h j (List.mem_cons_of_mem i hj))

/-- Folding any number of failing HTTP iterations moves nothing. -/
theorem http_run_fail_aux (pattern : String) (intensity : ℚ) (tor_mode : Bool) :
    ∀ (ins : List HttpIn) (c : ℕ) (b : Bool),
      (∀ i ∈ ins, i.requestOk = false) →
      ins.foldl (http_stats_step pattern intensity tor_mode) (c, b) = (c, b) := by
  intro ins
  induction ins with
  | nil => intro c b _; rfl
  | cons i is ih =>
    intro c b h
    have hi : i.requestOk = false := h i (List.mem_cons_self i is)
    have hstep : http_stats_step pattern intensity tor_mode (c, b) i = (c, b) := by
      unfold http_stats_step
      rw [hi]
      obtain ⟨h1, h2⟩ := http_iter_fail_noop pattern intensity tor_mode c i.uGate i.paceDraw
      simp [h1, h2]
    rw [List.foldl_cons, hstep]
    exact ih c b (fun j hj => h j (List.mem_cons_of_mem i hj))

/-- Folding any number of failing UDP iterations moves nothing. -/
theorem udp_run_fail_aux (pattern : String) (intensity : ℚ) (tor_mode : Bool) :
    ∀ (ins : List UdpIn) (c : ℕ) (b : Bool),
      (∀ i ∈ ins, i.sendOk = false) →
      ins.foldl (udp_stats_step pattern intensity tor_mode) (c, b) = (c, b) := by
  intro ins
  induction ins with
  | nil => intro c b _; rfl
  | cons i is ih =>
    intro c b h
    have hi : i.sendOk = false := h i (List.mem_cons_self i is)
    have hstep : udp_stats_step pattern intensity tor_mode (c, b) i = (c, b) := by
      unfold udp_stats_step
      rw [hi]
      obtain ⟨h1, h2⟩ := udp_iter_fail_noop pattern intensity tor_mode c i.uGate i.paceDraw
      simp [h1, h2]
    rw [List.foldl_cons, hstep]
    exact ih c b (fun j hj => h j (List.mem_cons_of_mem i hj))

/-- Folding any number of connect-failing TCP iterations moves nothing. -/
theorem tcp_run_fail_aux (pattern : String) (intensity : ℚ) (tor_mode : Bool) :
    ∀ (ins : List TcpIn) (c : ℕ) (b : Bool),
      (∀ i ∈ ins, i.connectOk = false) →
      ins.foldl (tcp_stats_step pattern intensity tor_mode) (c, b) = (c, b) := by
  intro ins
  induction ins with
  | nil => intro c b _; rfl
  | cons i is ih =>
    intro c b h
    have hi : i.connectOk = false := h i (List.mem_cons_self i is)
    have hstep : tcp_stats_step pattern intensity tor_mode (c, b) i = (c, b) := by
      unfold tcp_stats_step
      obtain ⟨h1, h2⟩ := tcp_iter_fail_noop pattern intensity tor_mode c i hi
      simp [h1, h2]
    rw [List.foldl_cons, hstep]
    exact ih c b (fun j hj => h j (List.mem_cons_of_mem i hj))

/-- With an unknown pattern every DNS iteration is a caught KeyError. -/
theorem dns_iter_unknown (pattern : String) (hp : TRAFFIC_PATTERNS pattern = none)
    (intensity : ℚ) (tor_mode : Bool) (count : ℕ) (uGate : ℚ)
    (resolveOk : Bool) (paceDraw : ℚ) :
    generate_dns_noise_iter pattern intensity tor_mode count uGate resolveOk paceDraw
      = ⟨count, 0, false, false, false⟩ := by
  unfold generate_dns_noise_iter
  rw [hp]

/-- With an unknown pattern every HTTP iteration is a caught KeyError. -/
theorem http_iter_unknown (pattern : String) (hp : TRAFFIC_PATTERNS pattern = none)
    (intensity : ℚ) (tor_mode : Bool) (count : ℕ) (uGate : ℚ)
    (requestOk : Bool) (paceDraw : ℚ) :
    generate_http_noise_iter pattern intensity tor_mode count uGate requestOk paceDraw
      = ⟨count, 0, false, false, false⟩ := by
  unfold generate_http_noise_iter
  rw [hp]

/-- With an unknown pattern every UDP iteration is a caught KeyError. -/
theorem udp_iter_unknown (pattern : String) (hp : TRAFFIC_PATTERNS pattern = none)
    (intensity : ℚ) (tor_mode : Bool) (count : ℕ) (uGate : ℚ)
    (sendOk : Bool) (paceDraw : ℚ) :
    generate_udp_noise_iter pattern intensity tor_mode count uGate sendOk paceDraw
      = ⟨count, 0, false, false, false⟩ := by
  unfold generate_udp_noise_iter
  rw [hp]

/-- With an unknown pattern every TCP iteration is a caught KeyError. -/
theorem tcp_iter_unknown (pattern : String) (hp : TRAFFIC_PATTERNS pattern = none)
    (intensity : ℚ) (tor_mode : Bool) (count : ℕ) (i : TcpIn) :
    generate_tcp_noise_iter pattern intensity tor_mode count i
      = { count := count, sleep := 0, sent := none, closedSocket := false,
          attempted := false, acted := false, escaped := false } := by
  unfold generate_tcp_noise_iter
  rw [hp]

/-- Folding any DNS iterations under an unknown pattern moves nothing. -/
theorem dns_run_unknown_aux (pattern : String) (hp : TRAFFIC_PATTERNS pattern = none)
    (intensity : ℚ) (tor_mode : Bool) :
    ∀ (ins : List DnsIn) (c : ℕ) (b : Bool),
      ins.foldl (dns_stats_step pattern intensity tor_mode) (c, b) = (c, b) := by
  intro ins
  induction ins with
  | nil => intro c b; rfl
  | cons i is ih =>
    intro c b
    have hstep : dns_stats_step pattern intensity tor_mode (c, b) i = (c, b) := by
      unfold dns_stats_step
      rw [dns_iter_unknown pattern hp]
      simp
    rw [List.foldl_cons, hstep, ih c b]

/-- Folding any HTTP iterations under an unknown pattern moves nothing. -/
theorem http_run_unknown_aux (pattern : String) (hp : TRAFFIC_PATTERNS pattern = none)
    (intensity : ℚ) (tor_mode : Bool) :
    ∀ (ins : List HttpIn) (c : ℕ) (b : Bool),
      ins.foldl (http_stats_step pattern intensity tor_mode) (c, b) = (c, b) := by
  intro ins
  induction ins with
  | nil => intro c b; rfl
  | cons i is ih =>
    intro c b
    have hstep : http_stats_step pattern intensity tor_mode (c, b) i = (c, b) := by
      unfold http_stats_step
      rw [http_iter_unknown pattern hp]
      simp
    rw [List.foldl_cons, hstep, ih c b]

/-- Folding any UDP iterations under an unknown pattern moves nothing. -/
theorem udp_run_unknown_aux (pattern : String) (hp : TRAFFIC_PATTERNS pattern = none)
    (intensity : ℚ) (tor_mode : Bool) :
    ∀ (ins : List UdpIn) (c : ℕ) (b : Bool),
      ins.foldl (udp_stats_step pattern intensity tor_mode) (c, b) = (c, b) := by
  intro ins
  induction ins with
  | nil => intro c b; rfl
  | cons i is ih =>
    intro c b
    have hstep : udp_stats_step pattern intensity tor_mode (c, b) i = (c, b) := by
      unfold udp_stats_step
      rw [udp_iter_unknown pattern hp]
      simp
    rw [List.foldl_cons, hstep, ih c b]

/-- Folding any TCP iterations under an unknown pattern moves nothing. -/
theorem tcp_run_unknown_aux (pattern : String) (hp : TRAFFIC_PATTERNS pattern = none)
    (intensity : ℚ) (tor_mode : Bool) :
    ∀ (ins : List TcpIn) (c : ℕ) (b : Bool),
      ins.foldl (tcp_stats_step pattern intensity tor_mode) (c, b) = (c, b) := by
  intro ins
  induction ins with
  | nil => intro c b; rfl
  | cons i is ih =>
    intro c b
    have hstep : tcp_stats_step pattern intensity tor_mode (c, b) i = (c, b) := by
      unfold tcp_stats_step
      rw [tcp_iter_unknown pattern hp]
      simp
    rw [List.foldl_cons, hstep, ih c b]

/-- A name absent from the profile table is also not an argparse choice:
the four table keys and the four CLI choices coincide. -/
theorem lookup_none_not_mem (name : String)
    (hp : TRAFFIC_PATTERNS name = none) : name ∉ patternChoices := by
  intro hmem
  simp only [patternChoices, List.mem_cons, List.not_mem_nil, or_false] at hmem
  rcases hmem with rfl | rfl | rfl | rfl <;> exact absurd hp (by decide)

/-! Small concrete rational facts used to discharge hypotheses in the
witness theorems below. -/

theorem half_gt_browsing_dns_eff : (1/2 : ℚ) > browsingProfile.dns_ratio * 1 := by
  norm_num [browsingProfile]

theorem seven_tenths_gt_browsing_http_eff :
    (0.7 : ℚ) > browsingProfile.http_ratio * 1 := by
  norm_num [browsingProfile]

theorem zero_le_half_q : (0 : ℚ) ≤ 1/2 := by norm_num

theorem not_zero_gt_browsing_dns_one :
    ¬ (0 : ℚ) > browsingProfile.dns_ratio * 1 := by
  norm_num [browsingProfile]

theorem not_zero_gt_browsing_dns_two :
    ¬ (0 : ℚ) > browsingProfile.dns_ratio * 2 := by
  norm_num [browsingProfile]

theorem not_fail_input_gt_browsing_tcp :
    ¬ tcpConnectFailInput.uGate > browsingProfile.tcp_ratio * 1 := by
  norm_num [tcpConnectFailInput, browsingProfile]

theorem three_in_browsing_interval :
    browsingProfile.interval_min ≤ (3 : ℚ) ∧ (3 : ℚ) ≤ browsingProfile.interval_max := by
  norm_num [browsingProfile]

theorem one_div_two_lt_one_q : (1 : ℚ) / 2 < 1 := by norm_num

theorem one_le_four_div_two_q : (1 : ℚ) ≤ 4 / 2 := by norm_num

/-! The theorems settling the claims. -/

/-- C1: in every protocol generator the Gate step performs its Act exactly
when the uniform draw u satisfies u at most ratio times intensity (the
attempted flag equals the gate, and the gate decides the inclusive
comparison); when u exceeds the effective ratio the iteration does nothing
except sleep the fixed 0.1 second back-off; and over an equidistributed
grid of N uniform draws from the unit interval the activation frequency is
within 1/N of the effective ratio clamped to the unit interval, so over
iterations it converges to ratio times intensity clamped to [0, 1]. -/
theorem gate_act_exactly_when_below_effective_ratio
    (pattern : String) (prof : Profile) (intensity : ℚ) (tor_mode : Bool)
    (count : ℕ) (uGate uSkipD uSkipH paceDraw effectiveRatio : ℚ)
    (resolveOk requestOk : Bool) (N : ℕ)
    (hp : TRAFFIC_PATTERNS pattern = some prof)
    (hd : uSkipD > prof.dns_ratio * intensity)
    (hh : uSkipH > prof.http_ratio * intensity)
    (hN : 0 < N) (he : 0 ≤ effectiveRatio) :
    (generate_dns_noise_iter pattern intensity tor_mode count uGate resolveOk paceDraw).attempted
      = gateActs (prof.dns_ratio * intensity) uGate ∧
    generate_dns_noise_iter pattern intensity tor_mode count uSkipD resolveOk paceDraw
      = ⟨count, 0.1, false, false, false⟩ ∧
    (generate_http_noise_iter pattern intensity tor_mode count uGate requestOk paceDraw).attempted
      = gateActs (prof.http_ratio * intensity) uGate ∧
    generate_http_noise_iter pattern intensity tor_mode count uSkipH requestOk paceDraw
      = ⟨count, 0.1, false, false, false⟩ ∧
    gateActs effectiveRatio uGate = decide (uGate ≤ effectiveRatio) ∧
    |((gridActivations effectiveRatio N : ℚ)) / (N : ℚ) - min effectiveRatio 1|
      ≤ 1 / (N : ℚ) := by
  refine ⟨?_, ?_, ?_, ?_, gateActs_eq_decide_le effectiveRatio uGate,
    gridActivations_freq effectiveRatio N hN he⟩
  · unfold generate_dns_noise_iter
    rw [hp]
    by_cases hg : uGate > prof.dns_ratio * intensity
    · simp [hg, gateActs]
    · cases resolveOk <;> simp [hg, gateActs]
  · unfold generate_dns_noise_iter
    rw [hp]
    simp [hd]
  · unfold generate_http_noise_iter
    rw [hp]
    by_cases hg : uGate > prof.http_ratio * intensity
    · simp [hg, gateActs]
    · cases requestOk <;> simp [hg, gateActs]
  · unfold generate_http_noise_iter
    rw [hp]
    simp [hh]

/-- Witness for C1 at the browsing profile, intensity 1, draws 1/4 (gate
passes), 1/2 and 0.7 (gates skip), and a grid of 4 samples. -/
theorem gate_act_exactly_when_below_effective_ratio_witness :
    (generate_dns_noise_iter "browsing" 1 false 0 (1/4) true 2).attempted
      = gateActs (browsingProfile.dns_ratio * 1) (1/4) ∧
    generate_dns_noise_iter "browsing" 1 false 0 (1/2) true 2
      = ⟨0, 0.1, false, false, false⟩ ∧
    (generate_http_noise_iter "browsing" 1 false 0 (1/4) true 2).attempted
      = gateActs (browsingProfile.http_ratio * 1) (1/4) ∧
    generate_http_noise_iter "browsing" 1 false 0 (0.7) true 2
      = ⟨0, 0.1, false, false, false⟩ ∧
    gateActs (1/2) (1/4) = decide ((1/4 : ℚ) ≤ 1/2) ∧
    |((gridActivations (1/2) 4 : ℚ)) / ((4 : ℕ) : ℚ) - min (1/2) 1|
      ≤ 1 / ((4 : ℕ) : ℚ) :=
  gate_act_exactly_when_below_effective_ratio "browsing" browsingProfile 1 false 0
    (1/4) (1/2) (0.7) 2 (1/2) true true 4 rfl half_gt_browsing_dns_eff
    seven_tenths_gt_browsing_http_eff (by decide) zero_le_half_q

/-- C2: the Pace delay of an acting iteration is the uniform draw from
[interval_min, interval_max] divided by intensity; with Tor mode on and
the drawn delay below 1.0 the effective sleep is exactly 1.0, while a
drawn delay of at least 1.0, or any delay with Tor mode off, is left
unchanged. -/
theorem pace_delay_division_and_tor_floor
    (pattern : String) (prof : Profile) (intensity : ℚ) (tor_mode : Bool)
    (count : ℕ) (uGate d dLow dHigh : ℚ)
    (hp : TRAFFIC_PATTERNS pattern = some prof)
    (hg : ¬ uGate > prof.dns_ratio * intensity)
    (hdRange : prof.interval_min ≤ d ∧ d ≤ prof.interval_max)
    (hlow : dLow / intensity < 1)
    (hhigh : 1 ≤ dHigh / intensity) :
    (generate_dns_noise_iter pattern intensity tor_mode count uGate true d).sleep
      = pace_sleep intensity tor_mode d ∧
    pace_sleep intensity true dLow = 1 ∧
    pace_sleep intensity tor_mode dHigh = dHigh / intensity ∧
    pace_sleep intensity false d = d / intensity := by
  refine ⟨?_, ?_, ?_, ?_⟩
  · unfold generate_dns_noise_iter
    rw [hp]
    simp [hg]
  · simp [pace_sleep, hlow, max_eq_right hlow.le]
  · have hnot : ¬ (dHigh / intensity < 1) := not_lt.mpr hhigh
    simp [pace_sleep, hnot]
  · simp [pace_sleep]

/-- Witness for C2 at the browsing profile with intensity 2 and Tor mode
on: the draw 1 paces to exactly 1.0, the draw 4 paces to 4/2 unchanged. -/
theorem pace_delay_division_and_tor_floor_witness :
    (generate_dns_noise_iter "browsing" 2 true 0 0 true 3).sleep
      = pace_sleep 2 true 3 ∧
    pace_sleep 2 true 1 = 1 ∧
    pace_sleep 2 true 4 = 4 / 2 ∧
    pace_sleep 2 false 3 = 3 / 2 :=
  pace_delay_division_and_tor_floor "browsing" browsingProfile 2 true 0 0 3 1 4
    rfl not_zero_gt_browsing_dns_two three_in_browsing_interval
    one_div_two_lt_one_q one_le_four_div_two_q

/-- C3: any failure raised during the Act step is caught inside the loop,
no exception escapes any generator, and the counter is not incremented for
a failed iteration: with a transport that always fails, every generator
run ends with its counter exactly 0 and no escaped exception. -/
theorem failing_transport_counters_stay_zero
    (pattern : String) (intensity : ℚ) (tor_mode : Bool)
    (dnsIns : List DnsIn) (httpIns : List HttpIn)
    (tcpIns : List TcpIn) (udpIns : List UdpIn)
    (hdns : ∀ i ∈ dnsIns, i.resolveOk = false)
    (hhttp : ∀ i ∈ httpIns, i.requestOk = false)
    (htcp : ∀ i ∈ tcpIns, i.connectOk = false)
    (hudp : ∀ i ∈ udpIns, i.sendOk = false) :
    generate_dns_noise_run pattern intensity tor_mode dnsIns = (0, false) ∧
    generate_http_noise_run pattern intensity tor_mode httpIns = (0, false) ∧
    generate_tcp_noise_run pattern intensity tor_mode tcpIns = (0, false) ∧
    generate_udp_noise_run pattern intensity tor_mode udpIns = (0, false) :=
  ⟨dns_run_fail_aux pattern intensity tor_mode dnsIns 0 false hdns,
   http_run_fail_aux pattern intensity tor_mode httpIns 0 false hhttp,
   tcp_run_fail_aux pattern intensity tor_mode tcpIns 0 false htcp,
   udp_run_fail_aux pattern intensity tor_mode udpIns 0 false hudp⟩

/-- Witness for C3: concrete all-failing runs of every generator. -/
theorem failing_transport_counters_stay_zero_witness :
    generate_dns_noise_run "browsing" 1 false dnsFailIns = (0, false) ∧
    generate_http_noise_run "browsing" 1 false httpFailIns = (0, false) ∧
    generate_tcp_noise_run "browsing" 1 false tcpFailIns = (0, false) ∧
    generate_udp_noise_run "browsing" 1 false udpFailIns = (0, false) :=
  failing_transport_counters_stay_zero "browsing" 1 false
    dnsFailIns httpFailIns tcpFailIns udpFailIns
    (by decide) (by decide) (by decide) (by decide)

/-- C4 is false on the code: an iteration whose Act fails (gate passed,
resolve raised) performs no sleep at all, rather than the drawn pacing
delay — the exception jumps over the Pace step. -/
theorem failed_act_skips_pacing_counterexample :
    (generate_dns_noise_iter "browsing" 1 false 0 0 false 5).attempted = true ∧
    (generate_dns_noise_iter "browsing" 1 false 0 0 false 5).sleep
      ≠ pace_sleep 1 false 5 := by
  have hiter : generate_dns_noise_iter "browsing" 1 false 0 0 false 5
      = ⟨0, 0, true, false, false⟩ := by
    unfold generate_dns_noise_iter
    rw [show TRAFFIC_PATTERNS "browsing" = some browsingProfile from rfl]
    norm_num [browsingProfile]
  rw [hiter]
  have hpace : pace_sleep 1 false 5 = 5 := by
    unfold pace_sleep
    norm_num
  rw [hpace]
  norm_num

/-- C4 (amended): when the Act step fails, the iteration applies no delay
at all: the caught exception skips the Pace step, the counter stays
unchanged, and the next iteration begins immediately; only a subsequent
gate skip would sleep its fixed 0.1 second back-off. -/
theorem failed_act_applies_no_delay
    (pattern : String) (prof : Profile) (intensity : ℚ) (tor_mode : Bool)
    (count : ℕ) (uGate paceDraw : ℚ) (i : TcpIn)
    (hp : TRAFFIC_PATTERNS pattern = some prof)
    (hd : ¬ uGate > prof.dns_ratio * intensity)
    (ht : ¬ i.uGate > prof.tcp_ratio * intensity)
    (hc : i.connectOk = false) :
    generate_dns_noise_iter pattern intensity tor_mode count uGate false paceDraw
      = ⟨count, 0, true, false, false⟩ ∧
    generate_tcp_noise_iter pattern intensity tor_mode count i
      = { count := count, sleep := 0, sent := none, closedSocket := false,
          attempted := true, acted := false, escaped := false } := by
  constructor
  · unfold generate_dns_noise_iter
    rw [hp]
    simp [hd]
  · unfold generate_tcp_noise_iter
    rw [hp]
    simp [ht, hc]

/-- Witness for the amended C4: a failing DNS resolve and a failing TCP
connect both end their iteration with zero sleep and unchanged counter. -/
theorem failed_act_applies_no_delay_witness :
    generate_dns_noise_iter "browsing" 1 false 0 0 false 1
      = ⟨0, 0, true, false, false⟩ ∧
    generate_tcp_noise_iter "browsing" 1 false 0 tcpConnectFailInput
      = { count := 0, sleep := 0, sent := none, closedSocket := false,
          attempted := true, acted := false, escaped := false } :=
  failed_act_applies_no_delay "browsing" browsingProfile 1 false 0 0 1
    tcpConnectFailInput rfl not_zero_gt_browsing_dns_one
    not_fail_input_gt_browsing_tcp rfl

/-- C5 (code bug): on an HTTP-family port with a successful connect, the
source line 327 calls format on a bytes object, which raises
AttributeError in Python 3; the exception is caught by the loop handler,
so nothing is sent, the socket is not closed, and the tcp counter is not
incremented — the templated request send the claim describes never
happens. -/
theorem tcp_http_port_send_always_raises :
    tcp_common_ports.get tcpPort80Input.portIdx = 80 ∧
    bytes_format (http_requests.get tcpPort80Input.reqIdx)
        (tcp_targets.get tcpPort80Input.targetIdx)
      = Except.error PyExc.attributeError ∧
    generate_tcp_noise_iter "chaotic" 1 false 0 tcpPort80Input
      = { count := 0, sleep := 0, sent := none, closedSocket := false,
          attempted := true, acted := false, escaped := false } := by
  refine ⟨by decide, rfl, ?_⟩
  unfold generate_tcp_noise_iter
  rw [show TRAFFIC_PATTERNS "chaotic" = some ⟨1.0, 1.0, 1.0, 1.0, 0.1, 0.5⟩ from rfl]
  norm_num [tcpPort80Input, tcp_common_ports, tcp_targets, bytes_format]

/-- C6: for every known pattern name the table lookup returns a profile
whose four per-protocol ratios all lie in the unit interval and whose
interval_min is at most interval_max. -/
theorem lookup_profiles_well_formed (name : String) (h : name ∈ patternChoices) :
    ∃ p : Profile, TRAFFIC_PATTERNS name = some p ∧
      0 ≤ p.http_ratio ∧ p.http_ratio ≤ 1 ∧
      0 ≤ p.dns_ratio ∧ p.dns_ratio ≤ 1 ∧
      0 ≤ p.tcp_ratio ∧ p.tcp_ratio ≤ 1 ∧
      0 ≤ p.udp_ratio ∧ p.udp_ratio ≤ 1 ∧
      p.interval_min ≤ p.interval_max := by
  simp only [patternChoices, List.mem_cons, List.not_mem_nil, or_false] at h
  rcases h with rfl | rfl | rfl | rfl
  · exact ⟨_, rfl, by norm_num⟩
  · exact ⟨_, rfl, by norm_num⟩
  · exact ⟨_, rfl, by norm_num⟩
  · exact ⟨_, rfl, by norm_num⟩

/-- Witness for C6 at the browsing pattern. -/
theorem lookup_profiles_well_formed_witness :
    ("browsing" ∈ patternChoices) ∧
    (∃ p : Profile, TRAFFIC_PATTERNS "browsing" = some p ∧
      0 ≤ p.http_ratio ∧ p.http_ratio ≤ 1 ∧
      0 ≤ p.dns_ratio ∧ p.dns_ratio ≤ 1 ∧
      0 ≤ p.tcp_ratio ∧ p.tcp_ratio ≤ 1 ∧
      0 ≤ p.udp_ratio ∧ p.udp_ratio ≤ 1 ∧
      p.interval_min ≤ p.interval_max) :=
  ⟨by decide, lookup_profiles_well_formed "browsing" (by decide)⟩

/-- C7: the CLI boundary rejects intensity 0.09 and 10.01 and the unknown
pattern name stealth with a non-zero exit before any generator starts, and
accepts the inclusive bounds 0.1, 1.0 and 10.0. -/
theorem cli_validation_bounds :
    main_args_check "browsing" 0.09 = ConfigOutcome.exitCode 1 ∧
    main_args_check "browsing" 10.01 = ConfigOutcome.exitCode 1 ∧
    main_args_check "stealth" 1.0 = ConfigOutcome.exitCode 2 ∧
    main_args_check "browsing" 0.1 = ConfigOutcome.started "browsing" 0.1 ∧
    main_args_check "browsing" 1.0 = ConfigOutcome.started "browsing" 1.0 ∧
    main_args_check "browsing" 10.0 = ConfigOutcome.started "browsing" 10.0 := by
  have hb : ¬ ("browsing" : String) ∉ patternChoices := by decide
  have hs : ("stealth" : String) ∉ patternChoices := by decide
  refine ⟨?_, ?_, ?_, ?_, ?_, ?_⟩ <;> unfold main_args_check
  · rw [if_neg hb, if_pos (by norm_num : (0.09 : ℚ) < 0.1 ∨ (0.09 : ℚ) > 10.0)]
  · rw [if_neg hb, if_pos (by norm_num : (10.01 : ℚ) < 0.1 ∨ (10.01 : ℚ) > 10.0)]
  · rw [if_pos hs]
  · rw [if_neg hb, if_neg (by norm_num : ¬ ((0.1 : ℚ) < 0.1 ∨ (0.1 : ℚ) > 10.0))]
  · rw [if_neg hb, if_neg (by norm_num : ¬ ((1.0 : ℚ) < 0.1 ∨ (1.0 : ℚ) > 10.0))]
  · rw [if_neg hb, if_neg (by norm_num : ¬ ((10.0 : ℚ) < 0.1 ∨ (10.0 : ℚ) > 10.0))]

/-- C8 is false on the code: with one generator task, the SIGINT handler
action sequence never joins task 0 with the 1 second timeout — it only
clears the run flag and exits. -/
theorem sigint_join_counterexample :
    ¬ (Event.joinTask 0 1.0 ∈ signal_handler_events) := by
  decide

/-- C8 (amended): SIGINT clears the shared run flag, logs and terminates
the process with exit status 0 without joining any generator task; the
bounded 1 second per-task join lives only in ChaosecTool.stop, which
SIGINT does not invoke because the installed handler replaces the
KeyboardInterrupt path that would have called it. -/
theorem sigint_clears_flag_exits_without_join :
    signal_handler_events
      = [Event.clearRunFlag, Event.logInfo, Event.exitProcess 0] ∧
    signal_handler_events.all (fun e => !(e.isJoin)) = true ∧
    ChaosecTool_stop_events 3
      = [Event.clearRunFlag, Event.logInfo, Event.joinTask 0 1.0,
         Event.joinTask 1 1.0, Event.joinTask 2 1.0, Event.logInfo] :=
  ⟨rfl, rfl, rfl⟩

/-- C9 is false on the code: with no protocol generator enabled but
verbose set, start takes the nothing-enabled early return yet has already
spawned the stats reporter task. -/
theorem start_verbose_reporter_counterexample :
    start_warns_nothing_enabled startArgsVerboseOnly = true ∧
    start_spawned_tasks startArgsVerboseOnly ≠ [] := by
  exact ⟨rfl, by decide⟩

/-- C9 (amended): when no protocol generator is enabled, start surfaces
the nothing-enabled warning and returns immediately, never reaching the
keep-alive loop, and spawns no protocol generator task; only the stats
reporter task may have been spawned, when verbose is set. -/
theorem start_nothing_enabled_no_generator_tasks (a : StartArgs)
    (h : start_warns_nothing_enabled a = true) :
    (start_spawned_tasks a).all (fun t => t == TaskKind.reporter) = true ∧
    start_enters_keep_alive a = false := by
  have h4 : ((a.dns_noise = false ∧ a.http_flood = false) ∧
      a.tcp_noise = false) ∧ a.udp_noise = false := by
    simpa [start_warns_nothing_enabled] using h
  obtain ⟨⟨⟨h1, h2⟩, h3⟩, h4'⟩ := h4
  constructor
  · cases hv : a.verbose
    · simp [start_spawned_tasks, h1, h2, h3, h4', hv]
    · simp [start_spawned_tasks, h1, h2, h3, h4', hv]
      rfl
  · simp [start_enters_keep_alive, h]

/-- Witness for the amended C9 at arguments enabling nothing. -/
theorem start_nothing_enabled_no_generator_tasks_witness :
    (start_spawned_tasks startArgsNothing).all (fun t => t == TaskKind.reporter)
      = true ∧
    start_enters_keep_alive startArgsNothing = false :=
  start_nothing_enabled_no_generator_tasks startArgsNothing rfl

/-- C10: with a pattern name absent from the profile table, every
generator iteration has its KeyError swallowed by the loop handler: over
any run no exception escapes, the counters stay 0 and no traffic is
emitted, while the unknown-pattern rejection exists only at the CLI
boundary where the same name exits with status 2. -/
theorem unknown_pattern_generators_never_raise
    (pattern : String) (intensity : ℚ) (tor_mode : Bool)
    (dnsIns : List DnsIn) (httpIns : List HttpIn)
    (tcpIns : List TcpIn) (udpIns : List UdpIn)
    (hp : TRAFFIC_PATTERNS pattern = none) :
    generate_dns_noise_run pattern intensity tor_mode dnsIns = (0, false) ∧
    generate_http_noise_run pattern intensity tor_mode httpIns = (0, false) ∧
    generate_tcp_noise_run pattern intensity tor_mode tcpIns = (0, false) ∧
    generate_udp_noise_run pattern intensity tor_mode udpIns = (0, false) ∧
    main_args_check pattern intensity = ConfigOutcome.exitCode 2 := by
  refine ⟨dns_run_unknown_aux pattern hp intensity tor_mode dnsIns 0 false,
    http_run_unknown_aux pattern hp intensity tor_mode httpIns 0 false,
    tcp_run_unknown_aux pattern hp intensity tor_mode tcpIns 0 false,
    udp_run_unknown_aux pattern hp intensity tor_mode udpIns 0 false, ?_⟩
  unfold main_args_check
  rw [if_pos (lookup_none_not_mem pattern hp)]

/-- Witness for C10 at the unknown pattern name stealth. -/
theorem unknown_pattern_generators_never_raise_witness :
    generate_dns_noise_run "stealth" 1 false dnsFailIns = (0, false) ∧
    generate_http_noise_run "stealth" 1 false httpFailIns = (0, false) ∧
    generate_tcp_noise_run "stealth" 1 false tcpFailIns = (0, false) ∧
    generate_udp_noise_run "stealth" 1 false udpFailIns = (0, false) ∧
    main_args_check "stealth" 1 = ConfigOutcome.exitCode 2 :=
  unknown_pattern_generators_never_raise "stealth" 1 false
    dnsFailIns httpFailIns tcpFailIns udpFailIns (by decide)

end Chaosec
